import Mathlib

/-!
Shallow embedding of the notebook `1_Monitoring_your_TensorFlow_scripts.ipynb`
(TensorFlow-in-SageMaker workshop, notebook 1: monitoring training jobs).

The notebook's local data and operations are embedded as executable Lean
definitions: the `metric_definitions` list and the example list from the
markdown, a small regex matcher for the subset of Python `re` used by those
definitions, and a state-passing model of the notebook's code cells
(experiment loading, trial creation, estimator construction, the two
`estimator.fit` calls, and the generated CloudWatch / TensorBoard strings).
-/

/-- A notebook dict literal such as `\x7b'Name': ..., 'Regex': ...\x7d`,
embedded as an association list from string keys to string values. -/
abbrev MetricRecord := List (String × String)

/-- A metric-definition list: an ordered sequence of dict records. -/
abbrev MetricDefs := List MetricRecord

/-- The example metric-definition list shown in the notebook's markdown
(the `train:error` / `validation:error` example estimator). -/
def exampleMetricDefinitions : MetricDefs :=
  [ [("Name", "train:error"), ("Regex", "Train_error=(.*?);")],
    [("Name", "validation:error"), ("Regex", "Valid_error=(.*?);")] ]

/-- The solution `metric_definitions` list from the notebook's code cell.
The Python source writes each pattern with `\\.`, so the runtime string
holds a single backslash before the dot. -/
def metric_definitions : MetricDefs :=
  [ [("Name", "train:loss"), ("Regex", "loss: ([0-9\\.]+) - acc: [0-9\\.]+")],
    [("Name", "train:accuracy"), ("Regex", "loss: [0-9\\.]+ - acc: ([0-9\\.]+)")],
    [("Name", "validation:accuracy"), ("Regex", "val_loss: [0-9\\.]+ - val_acc: ([0-9\\.]+)")],
    [("Name", "validation:loss"), ("Regex", "val_loss: ([0-9\\.]+) - val_acc: [0-9\\.]+")] ]

/-- Scan a regex source string and count its capturing groups: an
unescaped `(` outside a character class that is not followed by `?`.
The first flag records a pending backslash escape, the second records
being inside a `[...]` character class. -/
def countCaptureGroupsAux : Bool → Bool → List Char → Nat
  | _, _, [] => 0
  | esc, inCls, c :: rest =>
    if esc then countCaptureGroupsAux false inCls rest
    else if c = '\\' then countCaptureGroupsAux true inCls rest
    else if inCls then
      if c = ']' then countCaptureGroupsAux false false rest
      else countCaptureGroupsAux false true rest
    else if c = '[' then countCaptureGroupsAux false true rest
    else if c = '(' then
      if rest.head? = some '?' then countCaptureGroupsAux false false rest
      else 1 + countCaptureGroupsAux false false rest
    else countCaptureGroupsAux false false rest

/-- Number of capturing groups of a regex source string. -/
def captureGroupCount (s : String) : Nat :=
  countCaptureGroupsAux false false s.data

/-- A metric-definition record is well formed when its keys are exactly
`Name` then `Regex` and its regex has exactly one capturing group. -/
def wellFormedMetricRecord (r : MetricRecord) : Bool :=
  (r.map Prod.fst == ["Name", "Regex"]) &&
  (match r.lookup "Regex" with
   | some rx => captureGroupCount rx == 1
   | none => false)

/-- The `Name` values of a metric-definition list, in order. -/
def metricNames (defs : MetricDefs) : List String :=
  defs.filterMap (fun r => r.lookup "Name")

example : captureGroupCount "loss: ([0-9\\.]+) - acc: [0-9\\.]+" = 1 := rfl
example : captureGroupCount "Train_error=(.*?);" = 1 := rfl

/-- C1: every record in the notebook's metric-definition lists — the markdown
example list with `train:error` / `validation:error` and the solution
`metric_definitions` list — has exactly the two fields `Name` and `Regex`,
and each `Regex` string contains exactly one capturing group. -/
theorem C1_metric_records_two_fields_one_group :
    (exampleMetricDefinitions ++ metric_definitions).all wellFormedMetricRecord = true := rfl

/-- C3: the `Name` fields of the `metric_definitions` records are the four
strings `train:loss`, `train:accuracy`, `validation:accuracy`,
`validation:loss`, and they are pairwise distinct. -/
theorem C3_metric_names_distinct :
    metricNames metric_definitions
      = ["train:loss", "train:accuracy", "validation:accuracy", "validation:loss"]
    ∧ (metricNames metric_definitions).Nodup :=
  ⟨rfl, by decide⟩

/-- A token of the regex subset used by `metric_definitions`: a literal
string, or a one-or-more repetition `[...]+` of a character class, with a
flag recording whether the repetition is wrapped in a capturing group. -/
inductive RTok where
  | lit (s : String)
  | cls (src : String) (cap : Bool)
deriving Repr, DecidableEq

/-- Membership of a character in a `[...]` class body: `a-b` ranges,
backslash-escaped literals, and plain characters. -/
def classMemAux : List Char → Char → Bool
  | [], _ => false
  | '\\' :: e :: rest, c => c == e || classMemAux rest c
  | a :: '-' :: b :: rest, c => (a ≤ c && c ≤ b) || classMemAux rest c
  | a :: rest, c => c == a || classMemAux rest c

/-- Membership of a character in the class whose source body is `src`. -/
def classMem (src : String) (c : Char) : Bool := classMemAux src.data c

/-- Render a token back to regex source text. -/
def RTok.render : RTok → String
  | .lit s => s
  | .cls src cap => if cap then "([" ++ src ++ "]+)" else "[" ++ src ++ "]+"

/-- Render a token sequence back to the regex source string it embeds. -/
def renderPattern (p : List RTok) : String := String.join (p.map RTok.render)

/-- Maximal run: the longest Boolean-satisfying front of a character list,
paired with the remainder. -/
def maxRun (p : Char → Bool) : List Char → List Char × List Char
  | [] => ([], [])
  | c :: cs =>
    if p c then
      let r := maxRun p cs
      (c :: r.1, r.2)
    else ([], c :: cs)

/-- All ways a greedy `+` over class predicate `p` can consume a nonempty
front of the input, longest first (Python `re` backtracking order). -/
def runSplits (p : Char → Bool) (cs : List Char) : List (List Char × List Char) :=
  let r := maxRun p cs
  (List.range r.1.length).map
    (fun k => (r.1.take (r.1.length - k), r.1.drop (r.1.length - k) ++ r.2))

/-- Try each `+` split in order: match the remaining tokens against the
suffix, and on success prepend the consumed run as a capture when `cap`. -/
def tryClsSplits (cap : Bool) (next : List Char → Option (List String)) :
    List (List Char × List Char) → Option (List String)
  | [] => none
  | pr :: more =>
    match next pr.2 with
    | some caps => some (if cap then String.mk pr.1 :: caps else caps)
    | none => tryClsSplits cap next more

/-- Match a token sequence at the start of the input (the input may extend
past the match, as with Python `re.search`), returning the list of captured
substrings in group order. -/
def matchToks : List RTok → List Char → Option (List String)
  | [], _ => some []
  | RTok.lit s :: ts, input =>
    if s.data.isPrefixOf input then matchToks ts (input.drop s.data.length) else none
  | RTok.cls src cap :: ts, input =>
    tryClsSplits cap (matchToks ts) (runSplits (classMem src) input)

/-- Leftmost search, as Python `re.search`: try a match at each start
position in order and return the captures of the first success. -/
def reSearch (pat : List RTok) : List Char → Option (List String)
  | [] => matchToks pat []
  | c :: rest =>
    match matchToks pat (c :: rest) with
    | some caps => some caps
    | none => reSearch pat rest

/-- The `train:loss` pattern `loss: ([0-9\.]+) - acc: [0-9\.]+`. -/
def patTrainLoss : List RTok :=
  [.lit "loss: ", .cls "0-9\\." true, .lit " - acc: ", .cls "0-9\\." false]

/-- The `train:accuracy` pattern `loss: [0-9\.]+ - acc: ([0-9\.]+)`. -/
def patTrainAccuracy : List RTok :=
  [.lit "loss: ", .cls "0-9\\." false, .lit " - acc: ", .cls "0-9\\." true]

/-- The `validation:accuracy` pattern `val_loss: [0-9\.]+ - val_acc: ([0-9\.]+)`. -/
def patValidationAccuracy : List RTok :=
  [.lit "val_loss: ", .cls "0-9\\." false, .lit " - val_acc: ", .cls "0-9\\." true]

/-- The `validation:loss` pattern `val_loss: ([0-9\.]+) - val_acc: [0-9\.]+`. -/
def patValidationLoss : List RTok :=
  [.lit "val_loss: ", .cls "0-9\\." true, .lit " - val_acc: ", .cls "0-9\\." false]

/-- The four patterns, in the order of `metric_definitions`. -/
def metricPatterns : List (List RTok) :=
  [patTrainLoss, patTrainAccuracy, patValidationAccuracy, patValidationLoss]

/-- Decimal digit test. -/
def isDigitChar (c : Char) : Bool := '0' ≤ c && c ≤ '9'

/-- A well-formed decimal number string: only digits and dots, at least one
digit, and at most one dot. -/
def isDecimal (s : String) : Bool :=
  s.data.any isDigitChar && s.data.all (fun c => isDigitChar c || c == '.')
    && Nat.ble (s.data.count '.') 1

/-- A sample matching Keras epoch progress log line, as produced by the
training script the metrics are configured against. -/
def sampleLogLine : String :=
  "1562/1562 [==============================] - 103s 66ms/step - loss: 2.1241 - acc: 0.2155 - val_loss: 1.9871 - val_acc: 0.2805"

example : reSearch patTrainLoss sampleLogLine.data = some ["2.1241"] := rfl

/-- C2: the four embedded patterns render back exactly to the `Regex`
strings of `metric_definitions`; Python-style leftmost greedy search of
each of them on a sample Keras epoch progress line succeeds with exactly
one captured substring; and each captured substring is a well-formed
decimal number. -/
theorem C2_each_regex_captures_one_decimal :
    metricPatterns.map renderPattern
        = metric_definitions.filterMap (fun r => r.lookup "Regex")
    ∧ metricPatterns.map (fun p => reSearch p sampleLogLine.data)
        = [some ["2.1241"], some ["0.2155"], some ["0.2805"], some ["1.9871"]]
    ∧ (["2.1241", "0.2155", "0.2805", "1.9871"] : List String).all isDecimal = true :=
  ⟨rfl, rfl, rfl⟩

/-- An experiment object as returned by `Experiment.load`. -/
structure ExperimentRec where
  experiment_name : String
deriving Repr, DecidableEq

/-- Modelled SDK call `Experiment.load(experiment_name=...)`: loading by name
yields the experiment carrying that name. -/
def Experiment.load (experiment_name : String) : ExperimentRec :=
  { experiment_name := experiment_name }

/-- A trial object as created by `Trial.create`. -/
structure TrialRec where
  trial_name : String
  experiment_name : String
deriving Repr, DecidableEq

/-- Modelled SDK call `Trial.create(trial_name=..., experiment_name=...)`. -/
def Trial.create (trial_name : String) (experiment_name : String) : TrialRec :=
  { trial_name := trial_name, experiment_name := experiment_name }

/-- The trial name built by the notebook's f-string
`cifar10-training-job-` followed by `int(time.time())`. -/
def trialNameFor (t : Nat) : String := "cifar10-training-job-" ++ toString t

/-- The channels dict passed to both `estimator.fit` calls. -/
def fitChannels : List (String × String) :=
  [("train", "train_data_location"),
   ("validation", "validation_data_location"),
   ("eval", "eval_data_location")]

/-- The `experiment_config` dict the notebook's markdown instructs the user
to pass to each fit call. -/
def experiment_config (experimentName trialName : String) : List (String × String) :=
  [("ExperimentName", experimentName), ("TrialName", trialName),
   ("TrialComponentDisplayName", "Training")]

/-- One `estimator.fit` call as issued by the notebook: the channels dict,
the `experiment_config` argument, the `wait` keyword as literally given
(absent in the first call, `False` in the second), and the
metric-definition list the estimator carries into the submission. -/
structure FitCall where
  channels : List (String × String)
  experimentConfig : List (String × String)
  wait : Option Bool
  metricDefinitions : Option MetricDefs
deriving Repr, DecidableEq

/-- Effective blocking behaviour of a fit call; the SDK blocks when the
`wait` keyword is omitted (spec: the non-blocking variant is selected by
the fire-and-forget flag). -/
def FitCall.effectiveWait (f : FitCall) : Bool := f.wait.getD true

/-- The estimator as far as the notebook configures it locally: the
markdown instructs `metric_definitions=metric_definitions`. -/
structure EstimatorCfg where
  metricDefinitions : Option MetricDefs
deriving Repr, DecidableEq

/-- The notebook's mutable interpreter state: the variables its code cells
assign, plus the histories of created trials and issued fit calls. -/
structure NotebookState where
  metricDefinitions : Option MetricDefs := none
  experiment : Option ExperimentRec := none
  trial : Option TrialRec := none
  estimator : Option EstimatorCfg := none
  createdTrials : List TrialRec := []
  fitCalls : List FitCall := []
  searchExpr : Option (List (String × String)) := none
deriving Repr, DecidableEq

/-- Cell: `metric_definitions = [...]` (parameterized by the authored list;
the notebook authors `metric_definitions`). -/
def cellDefineMetrics (mdefs : MetricDefs) (s : NotebookState) : NotebookState :=
  { s with metricDefinitions := some mdefs }

/-- Cell: imports and `sagemaker.Session()` / `get_execution_role()`; touches
none of the modelled variables. -/
def cellSession (s : NotebookState) : NotebookState := s

/-- Cell: `cifar10_experiment = Experiment.load(experiment_name="TensorFlow-cifar10-experiment")`. -/
def cellLoadExperiment (s : NotebookState) : NotebookState :=
  { s with experiment := some (Experiment.load "TensorFlow-cifar10-experiment") }

/-- Cell: `trial_name = f"cifar10-training-job-..."` then
`trial = Trial.create(trial_name=trial_name, experiment_name=cifar10_experiment.experiment_name)`;
run twice in the notebook, once before each training job. -/
def cellCreateTrial (t : Nat) (s : NotebookState) : NotebookState :=
  let tr := Trial.create (trialNameFor t)
    ((s.experiment.map ExperimentRec.experiment_name).getD "")
  { s with trial := some tr, createdTrials := s.createdTrials ++ [tr] }

/-- Cell: `dataset_location = sagemaker_session.upload_data(...)`; touches
none of the modelled variables. -/
def cellUploadData (s : NotebookState) : NotebookState := s

/-- Cell: `estimator = ...` with, per the in-cell comment, the
`metric_definitions=metric_definitions` argument; run twice (the markdown
asks for the same estimator configuration both times). -/
def cellEstimator (s : NotebookState) : NotebookState :=
  { s with estimator := some { metricDefinitions := s.metricDefinitions } }

/-- The `experiment_config` argument of a fit call, per the markdown
instruction: the loaded experiment's name, the current trial's name, and
the display name `Training`. -/
def experimentConfigFor (s : NotebookState) : List (String × String) :=
  experiment_config ((s.experiment.map ExperimentRec.experiment_name).getD "")
    ((s.trial.map TrialRec.trial_name).getD "")

/-- Cell: `estimator.fit({...channels...}, experiment_config=...)` — the
first, blocking submission: the config from the markdown instruction,
naming the current trial, and no `wait` keyword. -/
def cellFitBlocking (s : NotebookState) : NotebookState :=
  { s with fitCalls :=
      (s.fitCalls ++
        [{ channels := fitChannels, experimentConfig := experimentConfigFor s, wait := none,
           metricDefinitions := (s.estimator.map EstimatorCfg.metricDefinitions).getD none }]) }

/-- Cell: `estimator.fit({...channels...}, experiment_config=..., wait=False)`
— the second, non-blocking submission, with the config naming the trial
created just before it. -/
def cellFitAsync (s : NotebookState) : NotebookState :=
  { s with fitCalls :=
      (s.fitCalls ++
        [{ channels := fitChannels, experimentConfig := experimentConfigFor s, wait := some false,
           metricDefinitions := (s.estimator.map EstimatorCfg.metricDefinitions).getD none }]) }

/-- Cell: build and display the CloudWatch metrics link; touches none of the
modelled variables. -/
def cellCloudwatchLink (s : NotebookState) : NotebookState := s

/-- Cell: build and display the TensorBoard command; touches none of the
modelled variables. -/
def cellTensorboardLink (s : NotebookState) : NotebookState := s

/-- Cell: `search_expression = ...` with the single DisplayName filter. -/
def cellSearchExpression (s : NotebookState) : NotebookState :=
  { s with searchExpr :=
      (some [("Name", "DisplayName"), ("Operator", "Equals"), ("Value", "Training")]) }

/-- Cell: `ExperimentAnalytics(...)` and `dataframe(...)`; touches none of
the modelled variables. -/
def cellAnalytics (s : NotebookState) : NotebookState := s

/-- The notebook's code cells in execution order, parameterized by the
authored metric-definition list and the two trial timestamps. -/
def notebookCells (mdefs : MetricDefs) (t1 t2 : Nat) :
    List (NotebookState → NotebookState) :=
  [cellDefineMetrics mdefs, cellSession, cellLoadExperiment, cellCreateTrial t1,
   cellUploadData, cellEstimator, cellFitBlocking, cellCloudwatchLink,
   cellCreateTrial t2, cellEstimator, cellFitAsync, cellTensorboardLink,
   cellSearchExpression, cellAnalytics]

/-- The interpreter states along the notebook run: the initial state
followed by the state after each code cell. -/
def statesTrace (mdefs : MetricDefs) (t1 t2 : Nat) : List NotebookState :=
  (notebookCells mdefs t1 t2).scanl (fun s f => f s) {}

/-- The final state of a notebook run with the given authored list. -/
def runNotebookWith (mdefs : MetricDefs) (t1 t2 : Nat) : NotebookState :=
  (notebookCells mdefs t1 t2).foldl (fun s f => f s) {}

/-- The final state of the notebook as written, authoring `metric_definitions`. -/
def runNotebook (t1 t2 : Nat) : NotebookState :=
  runNotebookWith metric_definitions t1 t2

example : (runNotebook 1 2).fitCalls.length = 2 := rfl

/-- C4: with the notebook's authored `metric_definitions` list, every
interpreter state after the authoring cell carries the list unchanged, and
both job-submission calls receive exactly the authored list: no cell adds,
removes, reorders, or rewrites any record or field on the way. -/
theorem C4_metric_definitions_passed_unchanged (t1 t2 : Nat) :
    ((statesTrace metric_definitions t1 t2).drop 1).all
        (fun s => s.metricDefinitions == some metric_definitions) = true
    ∧ (runNotebook t1 t2).fitCalls.all
        (fun c => c.metricDefinitions == some metric_definitions) = true :=
  ⟨rfl, rfl⟩

/-- C5: for every authored metric-definition list — including one holding a
malformed regex or a wrong number of capture groups — the notebook run
performs the same two submissions, with the list passed through untouched
and unvalidated; erasing the list from the submissions, two runs with
different lists are identical. -/
theorem C5_no_local_validation_of_regexes (mdefs mdefs2 : MetricDefs) (t1 t2 : Nat) :
    (runNotebookWith mdefs t1 t2).fitCalls
      = [{ channels := fitChannels,
           experimentConfig := experiment_config "TensorFlow-cifar10-experiment" (trialNameFor t1),
           wait := none, metricDefinitions := some mdefs },
         { channels := fitChannels,
           experimentConfig := experiment_config "TensorFlow-cifar10-experiment" (trialNameFor t2),
           wait := some false, metricDefinitions := some mdefs }]
    ∧ (runNotebookWith mdefs t1 t2).fitCalls.map (fun c => { c with metricDefinitions := none })
      = (runNotebookWith mdefs2 t1 t2).fitCalls.map (fun c => { c with metricDefinitions := none }) :=
  ⟨rfl, rfl⟩

/-- Counterexample to C6 as stated: in the run with trial timestamps 1 and
2, the notebook's two fit calls do not differ only in the `wait` keyword —
each call's `experiment_config` names the trial created just before it, so
the second call's `TrialName` differs from the first's as well. -/
theorem C6_counterexample_configs_differ :
    ¬ ∃ c1 c2 : FitCall, (runNotebook 1 2).fitCalls = [c1, c2]
        ∧ c2 = { c1 with wait := some false } := by
  rintro ⟨c1, c2, h1, h2⟩
  have hc : c2.experimentConfig = c1.experimentConfig := by rw [h2]
  have hmap : ((runNotebook 1 2).fitCalls.map
        (fun c => c.experimentConfig.lookup "TrialName"))
      = [c1.experimentConfig.lookup "TrialName", c1.experimentConfig.lookup "TrialName"] := by
    rw [h1]
    simp [hc]
  have h0 : ((runNotebook 1 2).fitCalls.map
        (fun c => c.experimentConfig.lookup "TrialName"))
      = [some "cifar10-training-job-1", some "cifar10-training-job-2"] := rfl
  rw [h0] at hmap
  injection hmap with e1 rest
  injection rest with e2 _
  exact absurd (e1.trans e2.symm) (by decide)

/-- C6 (amended): the notebook issues exactly two fit calls with the same
channels and metric definitions; they differ only in the `wait` keyword —
omitted by the first call (so it blocks) and passed as `False` by the
second (fire-and-forget) — and in the `TrialName` of their
`experiment_config`, each call naming the trial created just before it. -/
theorem C6_fit_calls_differ_only_in_wait_and_trial (t1 t2 : Nat) :
    ∃ c1 c2 : FitCall,
      (runNotebook t1 t2).fitCalls = [c1, c2]
      ∧ c2 = { c1 with
               wait := some false,
               experimentConfig := experiment_config "TensorFlow-cifar10-experiment" (trialNameFor t2) }
      ∧ c1.experimentConfig
          = experiment_config "TensorFlow-cifar10-experiment" (trialNameFor t1)
      ∧ c1.wait = none ∧ c1.effectiveWait = true
      ∧ c2.wait = some false ∧ c2.effectiveWait = false :=
  ⟨_, _, rfl, rfl, rfl, rfl, rfl, rfl, rfl⟩

/-- C8: both `Trial.create` calls attach their trial to the experiment
loaded under the name `TensorFlow-cifar10-experiment`, and every created
trial's name is `cifar10-training-job-` followed by the integer unix
timestamp taken at creation. -/
theorem C8_trials_attached_to_loaded_experiment (t1 t2 : Nat) :
    ((runNotebook t1 t2).createdTrials).map TrialRec.experiment_name
      = ["TensorFlow-cifar10-experiment", "TensorFlow-cifar10-experiment"]
    ∧ ((runNotebook t1 t2).createdTrials).map TrialRec.trial_name
      = [trialNameFor t1, trialNameFor t2]
    ∧ (∀ t : Nat, trialNameFor t = "cifar10-training-job-" ++ toString t)
    ∧ (runNotebook t1 t2).experiment = some (Experiment.load "TensorFlow-cifar10-experiment") :=
  ⟨rfl, rfl, fun _ => rfl, rfl⟩

/-- The notebook's `search_expression`: its `Filters` value, a list holding
the single DisplayName/Equals/Training filter dict. -/
def search_expression : List (List (String × String)) :=
  [[("Name", "DisplayName"), ("Operator", "Equals"), ("Value", "Training")]]

/-- A trial component as surfaced to the analytics query. -/
structure TrialComponent where
  displayName : String
deriving Repr, DecidableEq

/-- Modelled from the SageMaker Search semantics used by
`ExperimentAnalytics(search_expression=...)`: a filter dict matches a trial
component by comparing the named attribute with the given operator; only
the `DisplayName` / `Equals` combination used by the notebook is modelled. -/
def matchesFilter (f : List (String × String)) (tc : TrialComponent) : Bool :=
  match f.lookup "Name", f.lookup "Operator", f.lookup "Value" with
  | some "DisplayName", some "Equals", some v => tc.displayName == v
  | _, _, _ => false

/-- A trial component matches a search expression when it matches all of
its filters. -/
def matchesSearch (filters : List (List (String × String))) (tc : TrialComponent) : Bool :=
  filters.all (fun f => matchesFilter f tc)

/-- The trial component created for a training run launched with the given
`experiment_config`: its display name is the config's
`TrialComponentDisplayName`. -/
def trialComponentOf (cfg : List (String × String)) : TrialComponent :=
  { displayName := (cfg.lookup "TrialComponentDisplayName").getD "" }

/-- C9: the analytics `search_expression` selects exactly the trial
components whose display name is `Training`; that string is exactly what
each fit call's `experiment_config` sets as `TrialComponentDisplayName`,
so every component the notebook's training runs create matches the query. -/
theorem C9_search_expression_matches_training_components :
    (∀ tc : TrialComponent,
        matchesSearch search_expression tc = (tc.displayName == "Training"))
    ∧ (∀ e t : String,
        (experiment_config e t).lookup "TrialComponentDisplayName" = some "Training")
    ∧ (∀ e t : String,
        matchesSearch search_expression (trialComponentOf (experiment_config e t)) = true)
    ∧ (search_expression.head?.bind (fun f => f.lookup "Value")) = some "Training" := by
  refine ⟨fun tc => ?_, fun e t => rfl, fun e t => rfl, rfl⟩
  rw [show matchesSearch search_expression tc
        = ((tc.displayName == "Training") && true) from rfl, Bool.and_true]

/-- The `sagemaker_session` attributes the link-building cells read. -/
structure SessionRuntime where
  boto_region_name : String
  default_bucket : String
deriving Repr, DecidableEq

/-- The estimator attributes the link-building cells read, next to the
locally configured metric-definition list. -/
structure EstimatorRuntime where
  latest_training_job_name : String
  model_dir : String
  metricDefinitions : Option MetricDefs
deriving Repr, DecidableEq

/-- The fixed leading part of the CloudWatch metrics console URL. -/
def cwConsoleBase : String := "https://console.aws.amazon.com/cloudwatch/home?region="

/-- The fixed query fragment of the CloudWatch metrics console URL. -/
def cwMetricsQuery : String :=
  "#metricsV2:query=%7B/aws/sagemaker/TrainingJobs,TrainingJobName%7D%20"

/-- The CloudWatch metrics link the notebook builds:
`base + sagemaker_session.boto_region_name + query + estimator.latest_training_job.job_name`. -/
def cloudwatchLink (sess : SessionRuntime) (est : EstimatorRuntime) : String :=
  cwConsoleBase ++ sess.boto_region_name ++ cwMetricsQuery ++ est.latest_training_job_name

/-- C10: the CloudWatch metrics URL is the concatenation of a fixed leading
string, the session's region name, a fixed query fragment, and the latest
training job's name; it depends on nothing else, so any two session and
estimator states agreeing on those two inputs yield the identical URL. -/
theorem C10_cloudwatch_link_deterministic_in_region_and_job :
    (∀ sess est, cloudwatchLink sess est
        = cwConsoleBase ++ sess.boto_region_name ++ cwMetricsQuery
            ++ est.latest_training_job_name)
    ∧ ∀ s1 s2 e1 e2, s1.boto_region_name = s2.boto_region_name →
        e1.latest_training_job_name = e2.latest_training_job_name →
        cloudwatchLink s1 e1 = cloudwatchLink s2 e2 := by
  refine ⟨fun _ _ => rfl, fun s1 s2 e1 e2 h1 h2 => ?_⟩
  simp [cloudwatchLink, h1, h2]

/-- Witness for C10 at concrete inputs: two states differing in bucket,
model directory, and metric definitions but agreeing on region and job
name produce the same URL. -/
theorem C10_cloudwatch_link_witness :
    cloudwatchLink { boto_region_name := "us-east-1", default_bucket := "bucket-a" }
        { latest_training_job_name := "cifar10-2020-01-01", model_dir := "s3://a/model",
          metricDefinitions := some metric_definitions }
      = cloudwatchLink { boto_region_name := "us-east-1", default_bucket := "bucket-b" }
          { latest_training_job_name := "cifar10-2020-01-01", model_dir := "s3://b/model",
            metricDefinitions := none } :=
  C10_cloudwatch_link_deterministic_in_region_and_job.2 _ _ _ _ rfl rfl

/-- The TensorBoard command string the notebook builds:
`AWS_REGION='<region>' tensorboard --logdir <estimator.model_dir>`. -/
def tensorboardLink (sess : SessionRuntime) (est : EstimatorRuntime) : String :=
  "AWS_REGION=\x27" ++ sess.boto_region_name ++ "\x27 tensorboard --logdir " ++ est.model_dir

/-- Strip an expected leading character sequence, returning the remainder
on success. -/
def stripPre : List Char → List Char → Option (List Char)
  | [], cs => some cs
  | _ :: _, [] => none
  | p :: ps, c :: cs => if c = p then stripPre ps cs else none

/-- Parse a generated TensorBoard command back into the `AWS_REGION` value
(the quoted assignment at the front) and the `--logdir` argument (the rest
of the command). -/
def parseTBCommand (cmd : String) : Option (String × String) :=
  (stripPre ("AWS_REGION=\x27".data) cmd.data).bind (fun rest =>
    (stripPre ((rest.takeWhile (fun c => !(c == '\x27')))
        ++ '\x27' :: (" tensorboard --logdir ".data)) rest).map
      (fun dirChars => (String.mk (rest.takeWhile (fun c => !(c == '\x27'))), String.mk dirChars)))

theorem stripPre_append (l m : List Char) : stripPre l (l ++ m) = some m := by
  induction l with
  | nil => rfl
  | cons c cs ih => simp [stripPre, ih]

theorem takeWhile_append_stop (p : Char → Bool) (l : List Char) (c : Char) (m : List Char)
    (hl : ∀ x ∈ l, p x = true) (hc : p c = false) :
    (l ++ c :: m).takeWhile p = l := by
  induction l with
  | nil => simp [List.takeWhile_cons, hc]
  | cons a as ih =>
    have ha : p a = true := hl a (by simp)
    simp [List.takeWhile_cons, ha]
    exact ih (fun x hx => hl x (by simp [hx]))

/-- C7: the generated TensorBoard command assigns the session's region to
`AWS_REGION` and passes the estimator's remote log directory as the
`--logdir` argument: parsing the command back recovers exactly
`sagemaker_session.boto_region_name` and `estimator.model_dir`, for any
region name free of single quotes. -/
theorem C7_tensorboard_command_points_at_region_and_logdir
    (sess : SessionRuntime) (est : EstimatorRuntime)
    (h : '\x27' ∉ sess.boto_region_name.data) :
    parseTBCommand (tensorboardLink sess est)
      = some (sess.boto_region_name, est.model_dir) := by
  have hq : ∀ x ∈ sess.boto_region_name.data, (!(x == '\x27')) = true := by
    intro x hx
    have hne : x ≠ '\x27' := fun e => h (e ▸ hx)
    simp [hne]
  have hd : (tensorboardLink sess est).data
      = "AWS_REGION=\x27".data ++ (sess.boto_region_name.data
          ++ '\x27' :: (" tensorboard --logdir ".data ++ est.model_dir.data)) := by
    simp [tensorboardLink, String.data_append, List.append_assoc]
  have htw : (sess.boto_region_name.data
        ++ '\x27' :: (" tensorboard --logdir ".data ++ est.model_dir.data)).takeWhile
          (fun c => !(c == '\x27')) = sess.boto_region_name.data :=
    takeWhile_append_stop _ _ _ _ hq (by simp)
  have hsplit : sess.boto_region_name.data
        ++ '\x27' :: (" tensorboard --logdir ".data ++ est.model_dir.data)
      = (sess.boto_region_name.data ++ '\x27' :: " tensorboard --logdir ".data)
          ++ est.model_dir.data := by
    simp [List.append_assoc]
  unfold parseTBCommand
  rw [hd, stripPre_append]
  simp only [Option.some_bind]
  rw [htw, hsplit, stripPre_append]
  rfl

/-- Witness for C7 at concrete inputs: the command generated for region
`us-east-1` and log directory `s3://bucket/model` parses back to exactly
those two values. -/
theorem C7_tensorboard_command_witness :
    parseTBCommand (tensorboardLink
        { boto_region_name := "us-east-1", default_bucket := "bucket-a" }
        { latest_training_job_name := "cifar10-2020-01-01",
          model_dir := "s3://bucket/model", metricDefinitions := none })
      = some ("us-east-1", "s3://bucket/model") :=
  C7_tensorboard_command_points_at_region_and_logdir
    { boto_region_name := "us-east-1", default_bucket := "bucket-a" }
    { latest_training_job_name := "cifar10-2020-01-01",
      model_dir := "s3://bucket/model", metricDefinitions := none }
    (by decide)
